import Mathlib

/-!
Verification development for the Distributed-Marketplace backend.

Part 1 embeds the inventory stock ledger:
  - the Mongoose `Inventory` document schema (models/Inventory.js): stock
    counters with `min: 0` validators, the embedded movement log, and the
    pre-save hook recomputing `availableStock`;
  - the route handlers of
    services/inventory-service/routes/inventoryRoutes.js: create,
    PUT /:productId/stock, PUT /:productId/reserve, PUT /:productId/release.

Part 2 embeds the RabbitMQ helper class (connect / reconnect /
publishEvent / subscribeToEvents), with the behaviour of the external
broker library abstracted as explicit outcome parameters.
-/

set_option autoImplicit false

namespace Marketplace

/-- One entry of the append-only movement log (inventoryMovementSchema).
The schema stores `type` as a string restricted to
in/out/adjustment/reserved/released; routes only ever push those strings. -/
structure Movement where
  type : String
  quantity : Int
  reason : String
  reference : Option String
  performedBy : String
  deriving Repr, DecidableEq

/-- The Inventory document (inventorySchema), projected to the fields the
stock operations read or write: the three counters, the movement log and
the active flag. Stock quantities are JS numbers used integrally; we model
them as `Int`. -/
structure Inventory where
  currentStock : Int
  reservedStock : Int
  availableStock : Int
  movements : List Movement
  isActive : Bool
  deriving Repr, DecidableEq

/-- The pre('save') hook: `this.availableStock = this.currentStock -
this.reservedStock`. -/
def presave (inv : Inventory) : Inventory :=
  { inv with availableStock := inv.currentStock - inv.reservedStock }

/-- `document.save()`. Mongoose runs validation before user pre('save')
hooks, so the schema's `min: 0` validators on `currentStock`,
`reservedStock` and `availableStock` see the fields as the route left
them — `availableStock` still holding its stale previously-persisted
value — and only afterwards does the pre-save hook recompute
`availableStock`, whose fresh (possibly negative) value is persisted
unvalidated. A violated validator makes save throw a ValidationError
(modelled as `none`), leaving the persisted document unchanged. -/
def save (inv : Inventory) : Option Inventory :=
  if 0 ≤ inv.currentStock ∧ 0 ≤ inv.reservedStock ∧ 0 ≤ inv.availableStock then
    some (presave inv)
  else
    none

/-- Caller-visible error outcomes of the inventory routes. -/
inductive ApiError where
  /-- 400, required request fields missing (JS falsy check). -/
  | invalidRequest
  /-- 404, `findOne({productId, isActive: true})` returned null. -/
  | notFound
  /-- 400, insufficient available stock. -/
  | insufficientStock
  /-- 400, cannot release more stock than reserved. -/
  | insufficientReserved
  /-- 400, invalid movement type (the switch default). -/
  | invalidType
  /-- 400, inventory record already exists for this product. -/
  | duplicate
  /-- 400, Mongoose save rejected the document (min-0 validator). -/
  | validationError
  deriving Repr, DecidableEq

/-- The addMovement helper: pushes one movement onto the log. -/
def addMovement (inv : Inventory) (type : String) (quantity : Int)
    (reason : String) (reference : Option String)
    (performedBy : String) : Inventory :=
  { inv with movements :=
      inv.movements ++ [⟨type, quantity, reason, reference, performedBy⟩] }

/-- `Inventory.findOne({productId, isActive: true})`: the store holds at
most one record per productId; an inactive record is filtered out. -/
def findActive (store : Option Inventory) : Option Inventory :=
  match store with
  | some inv => if inv.isActive then some inv else none
  | none => none

/-- Shared tail of every mutating route: `await inventory.save()`, with a
ValidationError surfacing as a 400 response. -/
def persist (inv : Inventory) : Except ApiError Inventory :=
  match save inv with
  | some inv' => Except.ok inv'
  | none => Except.error ApiError.validationError

/-- POST /api/inventory: create a record (duplicates rejected), seed the
counters, log an initial `in` movement when `currentStock > 0`, save. -/
def createInventory (existing : Option Inventory) (currentStock : Int) :
    Except ApiError Inventory :=
  match existing with
  | some _ => Except.error ApiError.duplicate
  | none =>
    let base : Inventory :=
      { currentStock := currentStock, reservedStock := 0, availableStock := 0,
        movements := [], isActive := true }
    let seeded :=
      if 0 < currentStock then
        addMovement base "in" currentStock "Initial stock" none "admin"
      else base
    persist seeded

/-- PUT /api/inventory/:productId/stock. Required-field check uses JS
falsiness, so `quantity = 0` and empty strings count as missing. The
switch on `type` adds for `in`, checks availability and subtracts for
`out`, and sets the absolute value for `adjustment`. -/
def updateStock (store : Option Inventory) (quantity : Int) (type : String)
    (reason : String) (reference : Option String) (performedBy : String) :
    Except ApiError Inventory :=
  if quantity = 0 ∨ type = "" ∨ reason = "" then
    Except.error ApiError.invalidRequest
  else
    match findActive store with
    | none => Except.error ApiError.notFound
    | some inv =>
      match type with
      | "in" =>
        persist (addMovement { inv with currentStock := inv.currentStock + quantity }
          "in" quantity reason reference performedBy)
      | "out" =>
        if inv.availableStock < quantity then
          Except.error ApiError.insufficientStock
        else
          persist (addMovement { inv with currentStock := inv.currentStock - quantity }
            "out" quantity reason reference performedBy)
      | "adjustment" =>
        persist (addMovement { inv with currentStock := quantity }
          "adjustment" quantity reason reference performedBy)
      | _ => Except.error ApiError.invalidType

/-- PUT /api/inventory/:productId/reserve. -/
def reserve (store : Option Inventory) (quantity : Int) (orderId : String) :
    Except ApiError Inventory :=
  if quantity = 0 ∨ orderId = "" then
    Except.error ApiError.invalidRequest
  else
    match findActive store with
    | none => Except.error ApiError.notFound
    | some inv =>
      if inv.availableStock < quantity then
        Except.error ApiError.insufficientStock
      else
        persist (addMovement { inv with reservedStock := inv.reservedStock + quantity }
          "reserved" quantity "Stock reserved for order" (some orderId) "system")

/-- PUT /api/inventory/:productId/release. With `fulfill` the current
stock is also reduced and the movement is logged as `out`; otherwise the
movement is logged as `released`. -/
def release (store : Option Inventory) (quantity : Int) (orderId : String)
    (fulfill : Bool) : Except ApiError Inventory :=
  if quantity = 0 ∨ orderId = "" then
    Except.error ApiError.invalidRequest
  else
    match findActive store with
    | none => Except.error ApiError.notFound
    | some inv =>
      if inv.reservedStock < quantity then
        Except.error ApiError.insufficientReserved
      else
        let inv1 := { inv with reservedStock := inv.reservedStock - quantity }
        let inv2 :=
          if fulfill then
            addMovement { inv1 with currentStock := inv1.currentStock - quantity }
              "out" quantity "Stock fulfilled for order" (some orderId) "system"
          else
            addMovement inv1
              "released" quantity "Stock reservation cancelled" (some orderId) "system"
        persist inv2

/-- One ledger operation, as issued by a caller of the HTTP routes against
one product's record. -/
inductive Op where
  | stock (quantity : Int) (type reason : String) (reference : Option String)
      (performedBy : String)
  | reserveOp (quantity : Int) (orderId : String)
  | releaseOp (quantity : Int) (orderId : String) (fulfill : Bool)
  deriving Repr, DecidableEq

/-- Apply one operation to the persisted record: on any error response the
persisted document is unchanged (the route returns before `save`, or
`save` itself threw without persisting). -/
def applyOp (inv : Inventory) (op : Op) : Inventory :=
  match op with
  | Op.stock q t r ref pb =>
    match updateStock (some inv) q t r ref pb with
    | Except.ok inv' => inv'
    | Except.error _ => inv
  | Op.reserveOp q oid =>
    match reserve (some inv) q oid with
    | Except.ok inv' => inv'
    | Except.error _ => inv
  | Op.releaseOp q oid f =>
    match release (some inv) q oid f with
    | Except.ok inv' => inv'
    | Except.error _ => inv

/-- Run a sequence of ledger operations. -/
def runOps (inv : Inventory) (ops : List Op) : Inventory :=
  ops.foldl applyOp inv

/-- The documented stock invariant: both counters are non-negative, the
reserved stock never exceeds the on-hand stock, and the stored
`availableStock` is exactly their difference. -/
def StockInvariant (inv : Inventory) : Prop :=
  0 ≤ inv.reservedStock ∧ inv.reservedStock ≤ inv.currentStock ∧
    inv.availableStock = inv.currentStock - inv.reservedStock

instance (inv : Inventory) : Decidable (StockInvariant inv) := by
  unfold StockInvariant; infer_instance

/-- The mutable fields of the RabbitMQHelper singleton: whether the
`connection` and `channel` handles are set, the `isConnected` flag and the
`reconnectAttempts` counter. -/
structure MQState where
  hasConnection : Bool
  hasChannel : Bool
  isConnected : Bool
  reconnectAttempts : Nat
  deriving Repr, DecidableEq

/-- The helper right after its constructor ran: no handles, disconnected,
zero reconnect attempts. -/
def MQState.fresh : MQState :=
  { hasConnection := false, hasChannel := false, isConnected := false,
    reconnectAttempts := 0 }

/-- Broker-side effects a connect() call can perform. -/
inductive MQEffect where
  | createConnection
  | createChannel
  | assertExchange (name : String)
  deriving Repr, DecidableEq

/-- Outcome of a connect() call: a normal return or a thrown error, each
carrying the helper state it leaves behind. -/
inductive ConnectResult where
  | ok (st : MQState)
  | threw (st : MQState)
  deriving Repr, DecidableEq

/-- The early-return guard of connect():
`this.isConnected && this.connection && this.channel`. -/
def alreadyConnected (st : MQState) : Bool :=
  st.isConnected && st.hasConnection && st.hasChannel

/-- connect(). If the guard holds it returns the existing pair performing
no broker work. Otherwise it dials the broker — the outcome of
`amqp.connect` is abstracted as `connectSucceeds` — creates a channel,
asserts the three topic exchanges, sets `isConnected` and zeroes
`reconnectAttempts`; a failure sets `isConnected = false` and rethrows. -/
def connect (st : MQState) (connectSucceeds : Bool) :
    ConnectResult × List MQEffect :=
  if alreadyConnected st then
    (ConnectResult.ok st, [])
  else if connectSucceeds then
    (ConnectResult.ok
      { hasConnection := true, hasChannel := true, isConnected := true,
        reconnectAttempts := 0 },
     [MQEffect.createConnection, MQEffect.createChannel,
      MQEffect.assertExchange "order.events",
      MQEffect.assertExchange "payment.events",
      MQEffect.assertExchange "user.events"])
  else
    (ConnectResult.threw { st with isConnected := false }, [])

/-- Outcome of `channel.publish`: returned true, returned false
(channel-level flow control), or threw. -/
inductive SendOutcome where
  | accepted
  | rejected
  | threw
  deriving Repr, DecidableEq

/-- The try-block of publishEvent: lazily connect when
`!this.isConnected || !this.channel`, then hand the serialized message to
`channel.publish`. `Except.error` models an exception propagating out of
the try-block. -/
def publishAttempt (st : MQState) (connectSucceeds : Bool)
    (send : SendOutcome) : Except MQState (Bool × MQState) :=
  let step :=
    if st.isConnected && st.hasChannel then ConnectResult.ok st
    else (connect st connectSucceeds).1
  match step with
  | ConnectResult.threw st' => Except.error st'
  | ConnectResult.ok st' =>
    match send with
    | SendOutcome.accepted => Except.ok (true, st')
    | SendOutcome.rejected => Except.ok (false, st')
    | SendOutcome.threw => Except.error st'

/-- publishEvent with its catch-all handler: any exception from the
try-block is logged and `false` is returned to the caller. -/
def publishEvent (st : MQState) (connectSucceeds : Bool)
    (send : SendOutcome) : Bool × MQState :=
  match publishAttempt st connectSucceeds send with
  | Except.ok r => r
  | Except.error st' => (false, st')

/-- What the consume callback of subscribeToEvents does with the message:
acknowledge, reject without requeue (`nack(message, false, false)`), or
reject with requeue (never issued by this code). -/
inductive Disposition where
  | ack
  | nackNoRequeue
  | nackRequeue
  deriving Repr, DecidableEq

/-- The consume callback: `JSON.parse` the body (abstracted as `parse`,
`none` = throw), invoke the handler (`Except.error` = throw/reject), ack
on success; the shared catch rejects without requeue. -/
def handleDelivery {α : Type} (parse : String → Option α)
    (handler : α → Except String Unit) (body : String) : Disposition :=
  match parse body with
  | none => Disposition.nackNoRequeue
  | some content =>
    match handler content with
    | Except.ok _ => Disposition.ack
    | Except.error _ => Disposition.nackNoRequeue

/-- AMQP semantics of the disposition: ack and nack-without-requeue both
remove the delivery from the queue; only nack-with-requeue redelivers. -/
def removesFromQueue : Disposition → Bool
  | Disposition.nackRequeue => false
  | _ => true

/-- Whether the disposition puts the message back on the queue. -/
def requeues : Disposition → Bool
  | Disposition.nackRequeue => true
  | _ => false

/-- this.maxReconnectAttempts. -/
def maxReconnectAttempts : Nat := 5

/-- reconnect(): give up once the counter reaches the cap; otherwise count
the attempt and schedule a delayed connect. The Bool reports whether an
attempt was scheduled. -/
def reconnect (attempts : Nat) : Bool × Nat :=
  if maxReconnectAttempts ≤ attempts then (false, attempts)
  else (true, attempts + 1)

/-- Lifecycle events hitting the helper: the connection close handler
(sets `isConnected = false` then calls reconnect()), and a connect() call
completing with the given amqp outcome — including the delayed connect a
reconnect scheduled. -/
inductive MQEvent where
  | connectionClosed
  | connectCall (success : Bool)
  deriving Repr, DecidableEq

/-- One helper transition; the second component counts the reconnect
attempts scheduled by this event (0 or 1). -/
def mqStep (st : MQState) : MQEvent → MQState × Nat
  | MQEvent.connectionClosed =>
    let st1 := { st with isConnected := false }
    let r := reconnect st1.reconnectAttempts
    ({ st1 with reconnectAttempts := r.2 }, if r.1 then 1 else 0)
  | MQEvent.connectCall success =>
    match connect st success with
    | (ConnectResult.ok st', _) => (st', 0)
    | (ConnectResult.threw st', _) => (st', 0)

/-- Run a trace of lifecycle events. -/
def mqRun (st : MQState) : List MQEvent → MQState
  | [] => st
  | ev :: evs => mqRun (mqStep st ev).1 evs

/-- Total number of reconnect attempts scheduled along a trace. -/
def schedCount (st : MQState) : List MQEvent → Nat
  | [] => 0
  | ev :: evs => (mqStep st ev).2 + schedCount (mqStep st ev).1 evs

/-- While the helper believes itself connected, the reconnect counter is
zero (the fresh-connection path just zeroed it and nothing increments it
without first flipping `isConnected` off). -/
def ConnInv (st : MQState) : Prop :=
  st.isConnected = true → st.reconnectAttempts = 0

theorem save_eq {inv : Inventory} (h1 : 0 ≤ inv.currentStock)
    (h2 : 0 ≤ inv.reservedStock) (h3 : 0 ≤ inv.availableStock) :
    save inv =
      some { inv with availableStock := inv.currentStock - inv.reservedStock } := by
  unfold save presave
  rw [if_pos ⟨h1, h2, h3⟩]

theorem findActive_active {inv : Inventory} (hact : inv.isActive = true) :
    findActive (some inv) = some inv := by
  simp only [findActive, hact, if_true]

theorem reserve_ok_eq (inv : Inventory) (q : Int) (oid : String)
    (hact : inv.isActive = true) (hq : q ≠ 0) (hoid : oid ≠ "")
    (havail : ¬ inv.availableStock < q)
    (h1 : 0 ≤ inv.currentStock) (h2 : 0 ≤ inv.reservedStock + q)
    (h3 : 0 ≤ inv.availableStock) :
    reserve (some inv) q oid = Except.ok
      { currentStock := inv.currentStock,
        reservedStock := inv.reservedStock + q,
        availableStock := inv.currentStock - (inv.reservedStock + q),
        movements := inv.movements ++
          [⟨"reserved", q, "Stock reserved for order", some oid, "system"⟩],
        isActive := inv.isActive } := by
  have hsave : save
      { currentStock := inv.currentStock,
        reservedStock := inv.reservedStock + q,
        availableStock := inv.availableStock,
        movements := inv.movements ++
          [⟨"reserved", q, "Stock reserved for order", some oid, "system"⟩],
        isActive := inv.isActive } = some
      { currentStock := inv.currentStock,
        reservedStock := inv.reservedStock + q,
        availableStock := inv.currentStock - (inv.reservedStock + q),
        movements := inv.movements ++
          [⟨"reserved", q, "Stock reserved for order", some oid, "system"⟩],
        isActive := inv.isActive } :=
    save_eq h1 h2 h3
  simp only [reserve, findActive_active hact,
    if_neg (show ¬(q = 0 ∨ oid = "") by push_neg; exact ⟨hq, hoid⟩),
    if_neg havail, persist, addMovement, hsave]

theorem release_false_eq (inv : Inventory) (q : Int) (oid : String)
    (hact : inv.isActive = true) (hq : q ≠ 0) (hoid : oid ≠ "")
    (hres : ¬ inv.reservedStock < q)
    (h1 : 0 ≤ inv.currentStock)
    (h3 : 0 ≤ inv.availableStock) :
    release (some inv) q oid false = Except.ok
      { currentStock := inv.currentStock,
        reservedStock := inv.reservedStock - q,
        availableStock := inv.currentStock - (inv.reservedStock - q),
        movements := inv.movements ++
          [⟨"released", q, "Stock reservation cancelled", some oid, "system"⟩],
        isActive := inv.isActive } := by
  have hsave : save
      { currentStock := inv.currentStock,
        reservedStock := inv.reservedStock - q,
        availableStock := inv.availableStock,
        movements := inv.movements ++
          [⟨"released", q, "Stock reservation cancelled", some oid, "system"⟩],
        isActive := inv.isActive } = some
      { currentStock := inv.currentStock,
        reservedStock := inv.reservedStock - q,
        availableStock := inv.currentStock - (inv.reservedStock - q),
        movements := inv.movements ++
          [⟨"released", q, "Stock reservation cancelled", some oid, "system"⟩],
        isActive := inv.isActive } :=
    save_eq h1 (show (0:Int) ≤ inv.reservedStock - q by omega) h3
  simp only [release, findActive_active hact,
    if_neg (show ¬(q = 0 ∨ oid = "") by push_neg; exact ⟨hq, hoid⟩),
    if_neg hres, Bool.false_eq_true, if_false, persist, addMovement, hsave]

theorem release_true_eq (inv : Inventory) (q : Int) (oid : String)
    (hact : inv.isActive = true) (hq : q ≠ 0) (hoid : oid ≠ "")
    (hres : ¬ inv.reservedStock < q)
    (h1 : 0 ≤ inv.currentStock - q)
    (h3 : 0 ≤ inv.availableStock) :
    release (some inv) q oid true = Except.ok
      { currentStock := inv.currentStock - q,
        reservedStock := inv.reservedStock - q,
        availableStock := (inv.currentStock - q) - (inv.reservedStock - q),
        movements := inv.movements ++
          [⟨"out", q, "Stock fulfilled for order", some oid, "system"⟩],
        isActive := inv.isActive } := by
  have hsave : save
      { currentStock := inv.currentStock - q,
        reservedStock := inv.reservedStock - q,
        availableStock := inv.availableStock,
        movements := inv.movements ++
          [⟨"out", q, "Stock fulfilled for order", some oid, "system"⟩],
        isActive := inv.isActive } = some
      { currentStock := inv.currentStock - q,
        reservedStock := inv.reservedStock - q,
        availableStock := (inv.currentStock - q) - (inv.reservedStock - q),
        movements := inv.movements ++
          [⟨"out", q, "Stock fulfilled for order", some oid, "system"⟩],
        isActive := inv.isActive } :=
    save_eq h1 (show (0:Int) ≤ inv.reservedStock - q by omega) h3
  simp only [release, findActive_active hact,
    if_neg (show ¬(q = 0 ∨ oid = "") by push_neg; exact ⟨hq, hoid⟩),
    if_neg hres, if_true, persist, addMovement, hsave]

/-- C1: the code does not maintain the claimed invariant. Mongoose runs
validation before user pre('save') hooks, so the min-0 validators check
the stale `availableStock` while the value the hook recomputes is
persisted unvalidated. Concretely: from a fresh record stocked with 50,
reserving 10 reaches {50, 10, 40}; an adjustment of the stock to 5 is
then accepted — validation sees the stale availableStock 40 — and the
route answers 200 while persisting
{currentStock 5, reservedStock 10, availableStock −5}: a reachable state
with `reservedStock > currentStock` and a negative stored
`availableStock`, produced by an operation that was not rejected before
mutation. -/
theorem stock_invariant_violated_by_adjustment :
    createInventory none 50 = Except.ok
      ⟨50, 0, 50, [⟨"in", 50, "Initial stock", none, "admin"⟩], true⟩ ∧
    updateStock (some ⟨50, 10, 40,
        [⟨"in", 50, "Initial stock", none, "admin"⟩,
         ⟨"reserved", 10, "Stock reserved for order", some "orderA", "system"⟩],
        true⟩) 5 "adjustment" "Physical recount" none "admin" =
      Except.ok ⟨5, 10, -5,
        [⟨"in", 50, "Initial stock", none, "admin"⟩,
         ⟨"reserved", 10, "Stock reserved for order", some "orderA", "system"⟩,
         ⟨"adjustment", 5, "Physical recount", none, "admin"⟩], true⟩ ∧
    runOps ⟨50, 0, 50, [⟨"in", 50, "Initial stock", none, "admin"⟩], true⟩
      [Op.reserveOp 10 "orderA",
       Op.stock 5 "adjustment" "Physical recount" none "admin"] =
      ⟨5, 10, -5,
        [⟨"in", 50, "Initial stock", none, "admin"⟩,
         ⟨"reserved", 10, "Stock reserved for order", some "orderA", "system"⟩,
         ⟨"adjustment", 5, "Physical recount", none, "admin"⟩], true⟩ ∧
    ¬ StockInvariant ⟨5, 10, -5,
        [⟨"in", 50, "Initial stock", none, "admin"⟩,
         ⟨"reserved", 10, "Stock reserved for order", some "orderA", "system"⟩,
         ⟨"adjustment", 5, "Physical recount", none, "admin"⟩], true⟩ :=
  ⟨rfl, rfl, rfl, by decide⟩

/-- C4: on an active record whose available stock is below the requested
quantity (the request itself being well-formed), reserve fails with the
insufficient-stock error and the persisted record — counters and movement
log alike — is unmodified. -/
theorem reserve_insufficient_rejected (inv : Inventory) (q : Int)
    (oid : String) (hact : inv.isActive = true) (hinv : StockInvariant inv)
    (hoid : oid ≠ "") (hlt : inv.availableStock < q) :
    reserve (some inv) q oid = Except.error ApiError.insufficientStock ∧
      applyOp inv (Op.reserveOp q oid) = inv := by
  obtain ⟨h1, h2, h3⟩ := hinv
  have hq : q ≠ 0 := by intro h; subst h; omega
  have hres : reserve (some inv) q oid =
      Except.error ApiError.insufficientStock := by
    simp only [reserve, findActive_active hact,
      if_neg (show ¬(q = 0 ∨ oid = "") by push_neg; exact ⟨hq, hoid⟩),
      if_pos hlt]
  exact ⟨hres, by simp only [applyOp, hres]⟩

/-- Witness for C4 at the spec's concrete input: currentStock = 3,
reservedStock = 0, reserve of 5. -/
theorem reserve_insufficient_rejected_witness :
    reserve (some ⟨3, 0, 3, [], true⟩) 5 "orderA" =
        Except.error ApiError.insufficientStock ∧
      applyOp ⟨3, 0, 3, [], true⟩ (Op.reserveOp 5 "orderA") =
        ⟨3, 0, 3, [], true⟩ :=
  reserve_insufficient_rejected ⟨3, 0, 3, [], true⟩ 5 "orderA"
    rfl (by decide) (by decide) (by decide)

/-- Counterexample to C5 as stated: quantity 0 satisfies
`availableStock ≥ quantity` on an active record, yet the reserve route's
JS falsy required-field check rejects it, so the reserve/release pair
appends no movements at all instead of the claimed two. -/
theorem reserve_release_roundtrip_cex :
    0 ≤ (⟨50, 0, 50, [], true⟩ : Inventory).availableStock ∧
    reserve (some ⟨50, 0, 50, [], true⟩) 0 "orderA" =
      Except.error ApiError.invalidRequest ∧
    runOps ⟨50, 0, 50, [], true⟩
      [Op.reserveOp 0 "orderA", Op.releaseOp 0 "orderA" false] =
      ⟨50, 0, 50, [], true⟩ :=
  ⟨by decide, rfl, rfl⟩

/-- C5 (amended: the quantity must be nonzero — quantity 0 is rejected as
a missing required field — and must leave `reservedStock + q ≥ 0` so that
the reserve's save passes the min-0 validator): reserve of q followed by a
non-fulfilling release of q returns all three counters to their
pre-reserve values and appends exactly the two movements `reserved` then
`released`. -/
theorem reserve_release_roundtrip (inv : Inventory) (q : Int) (oid : String)
    (hact : inv.isActive = true) (hinv : StockInvariant inv)
    (hq : q ≠ 0) (hoid : oid ≠ "")
    (hr : 0 ≤ inv.reservedStock + q) (havail : q ≤ inv.availableStock) :
    ∃ inv1 inv2,
      reserve (some inv) q oid = Except.ok inv1 ∧
      release (some inv1) q oid false = Except.ok inv2 ∧
      inv2.currentStock = inv.currentStock ∧
      inv2.reservedStock = inv.reservedStock ∧
      inv2.availableStock = inv.availableStock ∧
      inv2.movements = inv.movements ++
        [⟨"reserved", q, "Stock reserved for order", some oid, "system"⟩,
         ⟨"released", q, "Stock reservation cancelled", some oid, "system"⟩] := by
  obtain ⟨h1, h2, h3⟩ := hinv
  refine ⟨_, _,
    reserve_ok_eq inv q oid hact hq hoid (by omega) (by omega) hr (by omega),
    release_false_eq _ q oid hact hq hoid
      (show ¬inv.reservedStock + q < q by omega)
      (show (0:Int) ≤ inv.currentStock by omega)
      (show (0:Int) ≤ inv.currentStock - (inv.reservedStock + q) by omega),
    show inv.currentStock = inv.currentStock from rfl,
    show inv.reservedStock + q - q = inv.reservedStock by omega,
    show inv.currentStock - (inv.reservedStock + q - q) = inv.availableStock
      by omega,
    by simp⟩

/-- Witness for C5's round trip at the spec's concrete input: reserve 5
then release 5 without fulfillment on a record holding 50/0. -/
theorem reserve_release_roundtrip_witness :
    ∃ inv1 inv2,
      reserve (some (⟨50, 0, 50, [], true⟩ : Inventory)) 5 "orderA" =
        Except.ok inv1 ∧
      release (some inv1) 5 "orderA" false = Except.ok inv2 ∧
      inv2.currentStock = 50 ∧ inv2.reservedStock = 0 ∧
      inv2.availableStock = 50 ∧
      inv2.movements =
        [⟨"reserved", 5, "Stock reserved for order", some "orderA", "system"⟩,
         ⟨"released", 5, "Stock reservation cancelled", some "orderA", "system"⟩] := by
  have h := reserve_release_roundtrip ⟨50, 0, 50, [], true⟩ 5 "orderA"
    rfl (by decide) (by decide) (by decide) (by decide) (by decide)
  simpa using h

/-- Counterexample to C6 as stated: quantity 0 satisfies
`availableStock ≥ quantity` on an active record, yet the reserve route's
JS falsy required-field check rejects it, so the reserve / fulfilling
release pair leaves the record untouched and appends no `out` movement. -/
theorem fulfill_roundtrip_cex :
    0 ≤ (⟨40, 10, 30, [], true⟩ : Inventory).availableStock ∧
    reserve (some ⟨40, 10, 30, [], true⟩) 0 "orderB" =
      Except.error ApiError.invalidRequest ∧
    runOps ⟨40, 10, 30, [], true⟩
      [Op.reserveOp 0 "orderB", Op.releaseOp 0 "orderB" true] =
      ⟨40, 10, 30, [], true⟩ :=
  ⟨by decide, rfl, rfl⟩

/-- C6 (amended: the quantity must be nonzero — quantity 0 is rejected as
a missing required field — and must leave `reservedStock + q ≥ 0` so the
reserve's save passes the min-0 validator): reserve of q followed by a
fulfilling release of q decreases `currentStock` by q, returns
`reservedStock` to its pre-reserve value, leaves `availableStock` at its
pre-reserve value minus q (the scenario {50,10} → {40,0}), and the
movement appended by the fulfilling release has type `out`. -/
theorem fulfill_reduces_stock (inv : Inventory) (q : Int) (oid : String)
    (hact : inv.isActive = true) (hinv : StockInvariant inv)
    (hq : q ≠ 0) (hoid : oid ≠ "")
    (hr : 0 ≤ inv.reservedStock + q) (havail : q ≤ inv.availableStock) :
    ∃ inv1 inv2,
      reserve (some inv) q oid = Except.ok inv1 ∧
      release (some inv1) q oid true = Except.ok inv2 ∧
      inv2.currentStock = inv.currentStock - q ∧
      inv2.reservedStock = inv.reservedStock ∧
      inv2.availableStock = inv.availableStock - q ∧
      inv2.movements = inv.movements ++
        [⟨"reserved", q, "Stock reserved for order", some oid, "system"⟩,
         ⟨"out", q, "Stock fulfilled for order", some oid, "system"⟩] := by
  obtain ⟨h1, h2, h3⟩ := hinv
  refine ⟨_, _,
    reserve_ok_eq inv q oid hact hq hoid (by omega) (by omega) hr (by omega),
    release_true_eq _ q oid hact hq hoid
      (show ¬inv.reservedStock + q < q by omega)
      (show (0:Int) ≤ inv.currentStock - q by omega)
      (show (0:Int) ≤ inv.currentStock - (inv.reservedStock + q) by omega),
    show inv.currentStock - q = inv.currentStock - q from rfl,
    show inv.reservedStock + q - q = inv.reservedStock by omega,
    show inv.currentStock - q - (inv.reservedStock + q - q) =
      inv.availableStock - q by omega,
    by simp⟩

/-- Witness for C6 at the spec's scenario: a record holding
currentStock 50, reservedStock 0; reserve 10 then release 10 with
fulfillment ends at {40, 0} with movements `reserved 10`, `out 10`. -/
theorem fulfill_reduces_stock_witness :
    ∃ inv1 inv2,
      reserve (some (⟨50, 0, 50, [], true⟩ : Inventory)) 10 "orderA" =
        Except.ok inv1 ∧
      release (some inv1) 10 "orderA" true = Except.ok inv2 ∧
      inv2.currentStock = 40 ∧ inv2.reservedStock = 0 ∧
      inv2.availableStock = 40 ∧
      inv2.movements =
        [⟨"reserved", 10, "Stock reserved for order", some "orderA", "system"⟩,
         ⟨"out", 10, "Stock fulfilled for order", some "orderA", "system"⟩] := by
  have h := fulfill_reduces_stock ⟨50, 0, 50, [], true⟩ 10 "orderA"
    rfl (by decide) (by decide) (by decide) (by decide) (by decide)
  simpa using h

/-- C9: the reserve route never requires the quantity to be positive. A
negative quantity q (with `reservedStock + q ≥ 0`) passes the falsy
required-field check and the availability check (`availableStock < q` is
false since `availableStock ≥ 0 > q`), so the reservation succeeds,
decreasing `reservedStock` by |q|, leaving `currentStock` untouched and
appending a `reserved` movement carrying the negative quantity; a
quantity of exactly 0, by contrast, is rejected as a missing required
field. -/
theorem reserve_negative_quantity (inv : Inventory) (q : Int) (oid : String)
    (hact : inv.isActive = true) (hinv : StockInvariant inv)
    (hoid : oid ≠ "") (hq : q < 0) (hr : 0 ≤ inv.reservedStock + q) :
    (∃ inv', reserve (some inv) q oid = Except.ok inv' ∧
      inv'.reservedStock = inv.reservedStock + q ∧
      inv'.currentStock = inv.currentStock ∧
      inv'.availableStock = inv.availableStock - q ∧
      inv'.movements = inv.movements ++
        [⟨"reserved", q, "Stock reserved for order", some oid, "system"⟩]) ∧
    reserve (some inv) 0 oid = Except.error ApiError.invalidRequest := by
  obtain ⟨h1, h2, h3⟩ := hinv
  constructor
  · refine ⟨_,
      reserve_ok_eq inv q oid hact (by omega) hoid (by omega) (by omega) hr
        (by omega),
      show inv.reservedStock + q = inv.reservedStock + q from rfl,
      show inv.currentStock = inv.currentStock from rfl,
      show inv.currentStock - (inv.reservedStock + q) =
        inv.availableStock - q by omega,
      rfl⟩
  · simp [reserve]

/-- Witness for C9: on a record holding currentStock 10, reservedStock 4,
a reserve of −3 succeeds and lowers reservedStock to 1, while a reserve
of 0 is rejected as invalid. -/
theorem reserve_negative_quantity_witness :
    (∃ inv', reserve (some (⟨10, 4, 6, [], true⟩ : Inventory)) (-3) "orderA" =
        Except.ok inv' ∧
      inv'.reservedStock = 1 ∧ inv'.currentStock = 10 ∧
      inv'.availableStock = 9 ∧
      inv'.movements =
        [⟨"reserved", -3, "Stock reserved for order", some "orderA", "system"⟩]) ∧
    reserve (some (⟨10, 4, 6, [], true⟩ : Inventory)) 0 "orderA" =
      Except.error ApiError.invalidRequest := by
  have h := reserve_negative_quantity ⟨10, 4, 6, [], true⟩ (-3) "orderA"
    rfl (by decide) (by decide) (by decide) (by decide)
  simpa using h

/-- C2: publishEvent is a total function into Bool — every exception of
the try-block (a failing lazy connect on a disconnected broker, or a
throwing channel send) is caught and converted to `false`, and a
broker-rejected send also yields `false` — so it returns `true` exactly
when a usable channel existed (or the lazy connect succeeded) and the
broker accepted the send; in every other situation, disconnected broker
included, the caller receives `false` rather than an exception and its
surrounding business operation proceeds. -/
theorem publish_never_throws (st : MQState) (connectSucceeds : Bool)
    (send : SendOutcome) :
    (publishEvent st connectSucceeds send).1 = true ↔
      ((st.isConnected && st.hasChannel) || connectSucceeds) = true ∧
        send = SendOutcome.accepted := by
  obtain ⟨hcn, hch, hic, n⟩ := st
  cases hcn <;> cases hch <;> cases hic <;> cases connectSucceeds <;>
    cases send <;>
    simp [publishEvent, publishAttempt, connect, alreadyConnected]

/-- C7: when the guard `isConnected && connection && channel` holds,
connect() returns the existing connection/channel pair, performing no new
connection and no exchange declaration; consequently any successful
connect() leaves a state from which every further connect() call is such
a no-op, so repeated calls are observably equivalent to a single call. -/
theorem connect_idempotent :
    (∀ (st : MQState) (b : Bool), alreadyConnected st = true →
      connect st b = (ConnectResult.ok st, [])) ∧
    (∀ (st : MQState) (b : Bool) (st' : MQState) (effs : List MQEffect)
      (b' : Bool), connect st b = (ConnectResult.ok st', effs) →
      connect st' b' = (ConnectResult.ok st', [])) := by
  constructor
  · intro st b h
    unfold connect
    rw [if_pos h]
  · intro st b st' effs b' h
    unfold connect at h
    by_cases hc : alreadyConnected st = true
    · rw [if_pos hc] at h
      injection h with h1 h2
      injection h1 with h1
      subst h1
      unfold connect
      rw [if_pos hc]
    · rw [if_neg hc] at h
      by_cases hb : b = true
      · rw [if_pos hb] at h
        injection h with h1 h2
        injection h1 with h1
        subst h1
        simp [connect, alreadyConnected]
      · rw [if_neg hb] at h
        exact absurd h (by simp)

/-- Witness for C7: on a fully connected helper state, connect() is the
identity with no broker effects. -/
theorem connect_idempotent_witness :
    connect ⟨true, true, true, 0⟩ false =
      (ConnectResult.ok ⟨true, true, true, 0⟩, []) :=
  connect_idempotent.1 ⟨true, true, true, 0⟩ false rfl

/-- C3: in the consume loop, a delivered message whose body parses has
its handler invoked; if the handler succeeds the message is acknowledged,
and if the handler throws it is nacked without requeue — a disposition
that removes the delivery from the queue and never redelivers it. -/
theorem consume_ack_success_drop_failure {α : Type}
    (parse : String → Option α) (handler : α → Except String Unit)
    (body : String) (content : α) (hp : parse body = some content) :
    (handler content = Except.ok () →
      handleDelivery parse handler body = Disposition.ack) ∧
    (∀ e, handler content = Except.error e →
      handleDelivery parse handler body = Disposition.nackNoRequeue ∧
      removesFromQueue (handleDelivery parse handler body) = true ∧
      requeues (handleDelivery parse handler body) = false) := by
  constructor
  · intro hh
    simp only [handleDelivery, hp, hh]
  · intro e hh
    simp [handleDelivery, hp, hh, removesFromQueue, requeues]

/-- Witness for C3: a failing handler on a parseable body leads to
nack-without-requeue, which removes the message and does not requeue. -/
theorem consume_ack_success_drop_failure_witness :
    handleDelivery (fun s => if s = "evt" then some 1 else none)
        (fun _ : Nat => Except.error "boom") "evt" =
      Disposition.nackNoRequeue ∧
    removesFromQueue (handleDelivery (fun s => if s = "evt" then some 1 else none)
        (fun _ : Nat => Except.error "boom") "evt") = true ∧
    requeues (handleDelivery (fun s => if s = "evt" then some 1 else none)
        (fun _ : Nat => Except.error "boom") "evt") = false :=
  (consume_ack_success_drop_failure (fun s => if s = "evt" then some 1 else none)
    (fun _ : Nat => Except.error "boom") "evt" 1 (by decide)).2 "boom" rfl

/-- C8: when the body is not valid JSON the parse throw lands in the same
catch as a handler failure: the message is nacked without requeue, and
the result is independent of the handler — the handler is never invoked —
so a malformed payload cannot crash the consume loop. -/
theorem malformed_payload_dropped {α : Type} (parse : String → Option α)
    (body : String) (hp : parse body = none) :
    ∀ handler : α → Except String Unit,
      handleDelivery parse handler body = Disposition.nackNoRequeue ∧
      requeues (handleDelivery parse handler body) = false := by
  intro handler
  simp [handleDelivery, hp, requeues]

/-- Witness for C8: an always-failing parse drops the message without
requeue, whatever the handler would have done. -/
theorem malformed_payload_dropped_witness :
    handleDelivery (fun _ => (none : Option Nat))
        (fun _ : Nat => Except.ok ()) "not json" =
      Disposition.nackNoRequeue ∧
    requeues (handleDelivery (fun _ => (none : Option Nat))
        (fun _ : Nat => Except.ok ()) "not json") = false :=
  malformed_payload_dropped (fun _ => (none : Option Nat)) "not json" rfl
    (fun _ : Nat => Except.ok ())

theorem mqStep_conninv (st : MQState) (ev : MQEvent) (h : ConnInv st) :
    ConnInv (mqStep st ev).1 := by
  cases ev with
  | connectionClosed =>
    intro hc
    simp only [mqStep] at hc
    exact absurd hc (by simp)
  | connectCall success =>
    simp only [mqStep]
    unfold connect
    by_cases hc : alreadyConnected st = true
    · rw [if_pos hc]
      exact h
    · rw [if_neg hc]
      by_cases hb : success = true
      · rw [if_pos hb]
        intro _
        rfl
      · rw [if_neg hb]
        intro hic
        exact absurd hic (by simp)

theorem mqRun_conninv (evs : List MQEvent) (st : MQState) (h : ConnInv st) :
    ConnInv (mqRun st evs) := by
  induction evs generalizing st with
  | nil => exact h
  | cons ev evs ih =>
    simp only [mqRun]
    exact ih _ (mqStep_conninv st ev h)

theorem schedCount_le (evs : List MQEvent) (st : MQState)
    (h : MQEvent.connectCall true ∉ evs) :
    schedCount st evs ≤ maxReconnectAttempts - st.reconnectAttempts := by
  induction evs generalizing st with
  | nil => simp [schedCount]
  | cons ev evs ih =>
    have hhd : ev ≠ MQEvent.connectCall true := by
      intro hcontra
      exact h (hcontra ▸ List.mem_cons_self ev evs)
    have htl : MQEvent.connectCall true ∉ evs :=
      fun hm => h (List.mem_cons_of_mem ev hm)
    cases ev with
    | connectionClosed =>
      by_cases hcap : maxReconnectAttempts ≤ st.reconnectAttempts
      · have h2 : (mqStep st MQEvent.connectionClosed).2 = 0 := by
          simp [mqStep, reconnect, hcap]
        have h1 : (mqStep st MQEvent.connectionClosed).1.reconnectAttempts =
            st.reconnectAttempts := by
          simp [mqStep, reconnect, hcap]
        have hrec := ih (mqStep st MQEvent.connectionClosed).1 htl
        simp only [schedCount]
        omega
      · have h2 : (mqStep st MQEvent.connectionClosed).2 = 1 := by
          simp [mqStep, reconnect, hcap]
        have h1 : (mqStep st MQEvent.connectionClosed).1.reconnectAttempts =
            st.reconnectAttempts + 1 := by
          simp [mqStep, reconnect, hcap]
        have hrec := ih (mqStep st MQEvent.connectionClosed).1 htl
        simp only [schedCount]
        unfold maxReconnectAttempts at hcap hrec ⊢
        omega
    | connectCall success =>
      cases success with
      | true => exact absurd rfl hhd
      | false =>
        have h12 : (mqStep st (MQEvent.connectCall false)).1.reconnectAttempts =
            st.reconnectAttempts ∧ (mqStep st (MQEvent.connectCall false)).2 = 0 := by
          simp only [mqStep]
          unfold connect
          by_cases hc : alreadyConnected st = true
          · rw [if_pos hc]
            exact ⟨rfl, rfl⟩
          · rw [if_neg hc]
            simp
        have hrec := ih (mqStep st (MQEvent.connectCall false)).1 htl
        obtain ⟨h1, h2⟩ := h12
        simp only [schedCount]
        omega

/-- C10: the reconnect budget is per disconnection episode. Any connect()
that returns successfully from a reachable helper state leaves the
reconnect counter at zero (the fresh path zeroes it; the early-return
path only fires when `isConnected`, which reachable states pair with a
zero counter). From a zero counter, a trace containing no successful
connect() schedules at most maxReconnectAttempts = 5 reconnect attempts,
and once the counter has reached 5 such a trace schedules none at all
until a successful connect() resets it. -/
theorem reconnect_capped_per_episode :
    (∀ (evs : List MQEvent) (b : Bool) (st' : MQState)
      (effs : List MQEffect),
      connect (mqRun MQState.fresh evs) b = (ConnectResult.ok st', effs) →
      st'.reconnectAttempts = 0) ∧
    (∀ (st : MQState) (evs : List MQEvent),
      MQEvent.connectCall true ∉ evs →
      schedCount st evs ≤ maxReconnectAttempts - st.reconnectAttempts) ∧
    (∀ (st : MQState) (evs : List MQEvent),
      maxReconnectAttempts ≤ st.reconnectAttempts →
      MQEvent.connectCall true ∉ evs → schedCount st evs = 0) := by
  refine ⟨?_, fun st evs h => schedCount_le evs st h, ?_⟩
  · intro evs b st' effs h
    have hinv : ConnInv (mqRun MQState.fresh evs) :=
      mqRun_conninv evs MQState.fresh (fun hc => rfl)
    unfold connect at h
    by_cases hc : alreadyConnected (mqRun MQState.fresh evs) = true
    · rw [if_pos hc] at h
      injection h with h1 h2
      injection h1 with h1
      subst h1
      apply hinv
      unfold alreadyConnected at hc
      simp only [Bool.and_eq_true] at hc
      exact hc.1.1
    · rw [if_neg hc] at h
      by_cases hb : b = true
      · rw [if_pos hb] at h
        injection h with h1 h2
        injection h1 with h1
        subst h1
        rfl
      · rw [if_neg hb] at h
        exact absurd h (by simp)
  · intro st evs hcap hno
    have := schedCount_le evs st hno
    omega

/-- Witness for C10: from the fresh helper, six close events with failing
reconnects schedule at most five attempts. -/
theorem reconnect_capped_per_episode_witness :
    schedCount MQState.fresh
        [MQEvent.connectionClosed, MQEvent.connectCall false,
         MQEvent.connectionClosed, MQEvent.connectCall false,
         MQEvent.connectionClosed, MQEvent.connectionClosed,
         MQEvent.connectionClosed, MQEvent.connectionClosed] ≤
      maxReconnectAttempts - MQState.fresh.reconnectAttempts :=
  reconnect_capped_per_episode.2.1 MQState.fresh
    [MQEvent.connectionClosed, MQEvent.connectCall false,
     MQEvent.connectionClosed, MQEvent.connectCall false,
     MQEvent.connectionClosed, MQEvent.connectionClosed,
     MQEvent.connectionClosed, MQEvent.connectionClosed]
    (by decide)

end Marketplace
